import Mathlib

/-!
Shallow embedding of `src/scripts/diagrams.py`: a linear pandas pipeline that
loads a review CSV, cleans it, annotates sentiment, reshapes, and renders six
charts.  A dataframe is modelled as a list of (index-label, row) pairs; the
external collaborators (the `langdetect` classifier and the VADER sentiment
scorer) are parameters of the pipeline; Python floats are modelled as ℚ.
-/

namespace Diagrams

/-- The four scores returned by `sid.polarity_scores` (line 68). -/
structure SentScores where
  negative : ℚ
  neutral : ℚ
  positive : ℚ
  compound : ℚ
deriving DecidableEq, Repr

/-- A review row.  The three evolving columns are type parameters:
`κ` is the category column (a raw string, later a list of segments),
`ρ` the rating column (a raw string, later a float),
`γ` the rating_count column (a possibly-missing string, later a float). -/
structure RowG (κ ρ γ : Type) where
  product_id : String
  product_name : String
  category : κ
  rating : ρ
  rating_count : γ
  review_content : String
deriving DecidableEq, Repr

/-- Apply per-column functions, as successive pandas column assignments do. -/
def RowG.mapCols {κ ρ γ κ' ρ' γ' : Type} (fc : κ → κ') (fr : ρ → ρ') (fg : γ → γ')
    (r : RowG κ ρ γ) : RowG κ' ρ' γ' :=
  { product_id := r.product_id, product_name := r.product_name,
    category := fc r.category, rating := fr r.rating,
    rating_count := fg r.rating_count, review_content := r.review_content }

/-- Row as read from the CSV (all text). -/
abbrev RawRow := RowG String String (Option String)

/-- Row after the category split (line 29): category is a list of segments. -/
abbrev SplitRow := RowG (List String) String (Option String)

/-- Row after the rating coercion (line 37). -/
abbrev RatedRow := RowG (List String) ℚ (Option String)

/-- Row after the rating_count repair (lines 40-42). -/
abbrev CountedRow := RowG (List String) ℚ ℚ

/-- Row after language detection (line 45) added a `language` column. -/
structure LangRow where
  row : CountedRow
  language : String
deriving DecidableEq, Repr

/-- Row after sentiment annotation (lines 67-71).  Line 71 overwrites the
numeric `compound` column with the string returned by `get_sentiment`, so the
final `compound` column has type `String`. -/
structure ScoredRow where
  product_id : String
  product_name : String
  category : List String
  rating : ℚ
  rating_count : ℚ
  review_content : String
  language : String
  negative : ℚ
  neutral : ℚ
  positive : ℚ
  compound : String
deriving DecidableEq, Repr

/-- Row of the exploded view (line 74): one single category per row. -/
structure ExplodedRow where
  product_id : String
  product_name : String
  category : String
  rating : ℚ
  rating_count : ℚ
  review_content : String
  language : String
  negative : ℚ
  neutral : ℚ
  positive : ℚ
  compound : String
deriving DecidableEq, Repr

/-! ### Per-column cleaning operations -/

/-- The character set of `str.strip(",🔸*-_\t\n+")` on line 26. -/
def stripSet : List Char := [',', '🔸', '*', '-', '_', '\t', '\n', '+']

/-- Python `s.strip(chars)`: drop leading and trailing characters of the set. -/
def stripReview (s : String) : String :=
  ⟨((s.data.dropWhile (· ∈ stripSet)).reverse.dropWhile (· ∈ stripSet)).reverse⟩

/-- Numeric value of a digit string (most significant digit first). -/
def digitsVal (l : List Char) : ℕ :=
  l.foldl (fun n c => 10 * n + (c.toNat - 48)) 0

/-- Model of the Python builtin `float` on the value domain this dataset uses:
a non-empty digit string, optionally followed by a dot and a non-empty digit
string.  Anything else (in particular the sentinel `"|"`) raises, modelled as
`none`. -/
def pyFloat? (s : String) : Option ℚ :=
  let w := s.data.takeWhile (· ≠ '.')
  match s.data.dropWhile (· ≠ '.') with
  | [] =>
    if w ≠ [] ∧ w.all Char.isDigit then some (digitsVal w) else none
  | _ :: frac =>
    if w ≠ [] ∧ w.all Char.isDigit ∧ frac ≠ [] ∧ frac.all Char.isDigit ∧ '.' ∉ frac then
      some ((digitsVal w : ℚ) + (digitsVal frac : ℚ) / 10 ^ frac.length)
    else none

/-- `str.replace(",", "")` of lines 41: drop every comma. -/
def removeCommas (s : String) : String := ⟨s.data.filter (· ≠ ',')⟩

/-- Lines 40-42: `fillna(0)`, `astype(str)`, strip commas, coerce to float.
A missing value becomes the number 0, whose string form is `"0"`. -/
def repairRatingCount (c : Option String) : Option ℚ :=
  match c with
  | none => pyFloat? "0"
  | some s => pyFloat? (removeCommas s)

/-- Lines 56-62: derive the categorical label from the compound score. -/
def get_sentiment (review : ℚ) : String :=
  if review ≥ 5 / 100 then "Positivo"
  else if review < -(5 / 100) then "Negative"
  else "Neutral"

/-- Line 195: truncate a product name for the chart-6 axis.  Python string
slicing and `len` act on the code-point sequence, i.e. on `String.data`. -/
def truncName (x : String) : String :=
  if 10 < x.length then (⟨x.data.take 10⟩ : String) ++ "..." else x

/-! ### Dataframe-level operations -/

/-- `pd.read_csv` (line 15): rows are labelled by a fresh 0-based range index. -/
def loadDF {ρ : Type} (rows : List ρ) : List (ℕ × ρ) :=
  (List.range rows.length).zip rows

/-- `df.drop_duplicates()` (line 18): keep the first occurrence of each row
value; index labels of survivors are untouched.  `seen` is the set of row
values already kept. -/
def dropDupAux {ρ : Type} [DecidableEq ρ] : List (ℕ × ρ) → List ρ → List (ℕ × ρ)
  | [], _ => []
  | e :: rest, seen =>
    if e.2 ∈ seen then dropDupAux rest seen else e :: dropDupAux rest (e.2 :: seen)

/-- `df.drop_duplicates()` (line 18). -/
def dropDuplicates {ρ : Type} [DecidableEq ρ] (df : List (ℕ × ρ)) : List (ℕ × ρ) :=
  dropDupAux df []

/-- Python `str.split` on one delimiter, on the code-point sequence:
`"a|b"` ↦ `[['a'], ['b']]`, `""` ↦ `[[]]`, `"a||b"` ↦ `[['a'], [], ['b']]`. -/
def splitPipe : List Char → List (List Char)
  | [] => [[]]
  | c :: rest =>
    match splitPipe rest with
    | [] => [[]]
    | h :: t => if c = '|' then [] :: h :: t else (c :: h) :: t

/-- Line 29: `x.split("|")` as a list of category segments. -/
def pySplitCats (s : String) : List String :=
  (splitPipe s.data).map (fun l => (⟨l⟩ : String))

/-- Lines 26 and 29: strip the review text, split the category on `"|"`. -/
def splitStep (r : RawRow) : SplitRow :=
  ({ r with review_content := stripReview r.review_content } : RawRow).mapCols
    pySplitCats id id

/-- The in-place deletion loops (lines 32-34 and 48-52): iterate over a
snapshot of the index labels; at each label look the row up in the current
frame and, when the drop predicate holds, delete every row carrying that
label. -/
def dropLoop {ρ : Type} (p : ρ → Bool) : List ℕ → List (ℕ × ρ) → List (ℕ × ρ)
  | [], df => df
  | x :: xs, df =>
    match df.lookup x with
    | none => dropLoop p xs df
    | some r => dropLoop p xs (if p r then df.filter (fun e => e.1 ≠ x) else df)

/-- Modelled from the spec (§9, "filter/predicate pass"): build a new
collection keeping exactly the rows not matching the drop predicate, in their
original relative order.  This is the refinement target of claim C10, not a
transcription of the source. -/
def filterPass {ρ : Type} (p : ρ → Bool) (df : List (ℕ × ρ)) : List (ℕ × ρ) :=
  df.filter (fun e => !(p e.2))

/-- Lines 32-34: drop the rows whose raw rating is the literal delimiter. -/
def ratingLoop (df : List (ℕ × SplitRow)) : List (ℕ × SplitRow) :=
  dropLoop (fun r => r.rating == "|") (df.map Prod.fst) df

/-- Line 37: `df["rating"].apply(float)`; the first unparseable value raises
and aborts the whole pipeline. -/
def coerceRatings : List (ℕ × SplitRow) → Option (List (ℕ × RatedRow))
  | [] => some []
  | e :: rest =>
    match pyFloat? e.2.rating with
    | none => none
    | some q => (coerceRatings rest).map (fun out => (e.1, e.2.mapCols id (fun _ => q) id) :: out)

/-- Lines 40-42 applied frame-wide; an unparseable surviving value aborts. -/
def coerceCounts : List (ℕ × RatedRow) → Option (List (ℕ × CountedRow))
  | [] => some []
  | e :: rest =>
    match repairRatingCount e.2.rating_count with
    | none => none
    | some q => (coerceCounts rest).map (fun out => (e.1, e.2.mapCols id id (fun _ => q)) :: out)

/-- Line 45: add the detected-language column. -/
def detectStep (detect : String → String) (df : List (ℕ × CountedRow)) : List (ℕ × LangRow) :=
  df.map (fun e => (e.1, ⟨e.2, detect e.2.review_content⟩))

/-- Lines 48-52: drop the rows whose detected language is not English. -/
def langLoop (df : List (ℕ × LangRow)) : List (ℕ × LangRow) :=
  dropLoop (fun r => r.language != "en") (df.map Prod.fst) df

/-- Line 52: `reset_index(drop=True)` relabels rows 0,1,2,…. -/
def resetIndex {ρ : Type} (df : List (ℕ × ρ)) : List (ℕ × ρ) :=
  (List.range df.length).zip (df.map Prod.snd)

/-- Lines 67-71: assign the four polarity scores, then overwrite the
`compound` column with the `get_sentiment` label (line 71). -/
def scoreRow (polarity : String → SentScores) (r : LangRow) : ScoredRow :=
  let s := polarity r.row.review_content
  { product_id := r.row.product_id, product_name := r.row.product_name,
    category := r.row.category, rating := r.row.rating,
    rating_count := r.row.rating_count, review_content := r.row.review_content,
    language := r.language, negative := s.negative, neutral := s.neutral,
    positive := s.positive, compound := get_sentiment s.compound }

/-- Sentiment annotation over the whole frame. -/
def scoreStep (polarity : String → SentScores) (df : List (ℕ × LangRow)) :
    List (ℕ × ScoredRow) :=
  df.map (fun e => (e.1, scoreRow polarity e.2))

/-- One exploded row per category segment, all other fields duplicated. -/
def explodeRow (r : ScoredRow) : List ExplodedRow :=
  r.category.map (fun c =>
    { product_id := r.product_id, product_name := r.product_name, category := c,
      rating := r.rating, rating_count := r.rating_count,
      review_content := r.review_content, language := r.language,
      negative := r.negative, neutral := r.neutral, positive := r.positive,
      compound := r.compound })

/-- Line 74: `df.explode('category')`.  The original index label is repeated
on each derived row.  (pandas would emit one NaN row for an empty list; in
this pipeline every category list comes from a `split("|")` and is
non-empty, which is the domain on which this model is faithful.) -/
def explodeStep (df : List (ℕ × ScoredRow)) : List (ℕ × ExplodedRow) :=
  df.flatMap (fun e => (explodeRow e.2).map (fun x => (e.1, x)))

/-- Line 75: multiply the three score columns of one exploded row by 100. -/
def rescaleRow (r : ExplodedRow) : ExplodedRow :=
  { r with negative := 100 * r.negative, neutral := 100 * r.neutral,
           positive := 100 * r.positive }

/-- The two frames alive after line 74: the original `df` and the derived
`df_exploded`. -/
structure PipeState where
  df : List (ℕ × ScoredRow)
  df_exploded : List (ℕ × ExplodedRow)
deriving DecidableEq

/-- Line 75, as a transformation of the two-frame state: the ×100 rescaling
is an assignment to columns of `df_exploded` only. -/
def rescaleState (st : PipeState) : PipeState :=
  { st with df_exploded := st.df_exploded.map (fun e => (e.1, rescaleRow e.2)) }

/-- The pandas sort key of line 78 read lexicographically:
positive first, then neutral, then negative. -/
def lexKey (r : ExplodedRow) : ℚ ×ₗ (ℚ ×ₗ ℚ) :=
  toLex (r.positive, toLex (r.neutral, r.negative))

/-- The sort order realising `sort_values(by=['positive', 'neutral',
'negative'], ascending=False)`: `a` may precede `b` iff `a`'s key tuple is
lexicographically ≥ `b`'s. -/
def rowGE (a b : ℕ × ExplodedRow) : Prop := lexKey b.2 ≤ lexKey a.2

instance : DecidableRel rowGE := fun a b =>
  inferInstanceAs (Decidable (lexKey b.2 ≤ lexKey a.2))

instance : IsTotal (ℕ × ExplodedRow) rowGE :=
  ⟨fun a b => le_total (lexKey b.2) (lexKey a.2)⟩

instance : IsTrans (ℕ × ExplodedRow) rowGE :=
  ⟨fun _ _ _ hab hbc => le_trans hbc hab⟩

/-- Line 78: sort descending by (positive, neutral, negative) and keep the
first 20 rows.  (pandas' unstable quicksort returns some permutation sorted
under this comparator; a deterministic sorted permutation models it.) -/
def top20 (df : List (ℕ × ExplodedRow)) : List (ℕ × ExplodedRow) :=
  (df.insertionSort rowGE).take 20

/-- Lines 15-52: load, deduplicate, clean columns, run the two deletion
loops, coerce the typed columns, detect languages, reset the index.  `none`
models a fatal, unhandled parse exception. -/
def runCleanPipeline (detect : String → String) (rows : List RawRow) :
    Option (List (ℕ × LangRow)) := do
  let df1 := dropDuplicates (loadDF rows)
  let df2 := df1.map (fun e => (e.1, splitStep e.2))
  let df3 ← coerceRatings (ratingLoop df2)
  let df4 ← coerceCounts df3
  let df5 := detectStep detect df4
  return resetIndex (langLoop df5)

/-- Lines 67-78: the 20-row slice every chart block reads from
(`df_exploded` after sorting and truncation). -/
def chartSlice (detect : String → String) (polarity : String → SentScores)
    (rows : List RawRow) : Option (List (ℕ × ExplodedRow)) :=
  (runCleanPipeline detect rows).map (fun df =>
    top20 ((explodeStep (scoreStep polarity df)).map (fun e => (e.1, rescaleRow e.2))))

/-- The two columns chart 4 actually receives (lines 145-151): `x` is
`review_length = len(str(review_content))` and both `y` and `color` are the
`compound` column — which by this point holds the `get_sentiment` label. -/
structure Chart4Point where
  review_length : ℕ
  compound : String
deriving DecidableEq, Repr

/-- Line 145 plus the `px.scatter` column selection of lines 146-151. -/
def chart4Data (sl : List (ℕ × ExplodedRow)) : List Chart4Point :=
  sl.map (fun e => ⟨e.2.review_content.length, e.2.compound⟩)

/-- The truncated product-name column fed to chart 6 (line 195). -/
def chart6Names (sl : List (ℕ × ExplodedRow)) : List String :=
  sl.map (fun e => truncName e.2.product_name)

/-! ### Concrete data used to exercise the pipeline -/

/-- A well-formed input row. -/
def demoRow : RawRow :=
  { product_id := "P1", product_name := "Gadget", category := "Electronics",
    rating := "4", rating_count := some "1,234", review_content := "great" }

/-- A stand-in for the language classifier: everything is English. -/
def demoDetect : String → String := fun _ => "en"

/-- A stand-in for the VADER scorer: fixed scores with a numeric compound
score of 1 (maximal positive polarity, inside the documented [-1, 1]). -/
def demoPolarity : String → SentScores := fun _ => ⟨0, 0, 1, 1⟩

/-- A split-stage frame containing the corruption sentinel and two parseable
ratings. -/
def rdemo : List (ℕ × SplitRow) :=
  [(0, ⟨"P1", "Gadget", ["Electronics"], "|", some "12", "broken row"⟩),
   (1, ⟨"P2", "Widget", ["Home"], "4.2", some "7", "fine row"⟩),
   (2, ⟨"P3", "Cable", ["Computers"], "3", none, "ok row"⟩)]

/-- A split-stage frame with a surviving row whose rating cannot be coerced. -/
def rdemoBad : List (ℕ × SplitRow) :=
  [(0, ⟨"P1", "Gadget", ["Electronics"], "four", some "12", "bad rating"⟩)]

/-- A language-annotated row detected as English. -/
def enRowDemo : LangRow := ⟨⟨"P2", "Widget", ["Home"], 4, 7, "fine row"⟩, "en"⟩

/-- A language-annotated frame with one English and one Spanish row. -/
def ldemo : List (ℕ × LangRow) :=
  [(0, ⟨⟨"P1", "Gadget", ["Electronics"], 5, 12, "muy bueno"⟩, "es"⟩),
   (1, enRowDemo)]

/-- A scored frame with one two-category row. -/
def sdemo : List (ℕ × ScoredRow) :=
  [(0, ⟨"P1", "Gadget", ["Electronics", "Accessories"], 4, 1234, "great", "en",
        0, 0, 1, "Positivo"⟩)]

/-- An exploded row whose three raw scores sum exactly to 1. -/
def xdemo : ExplodedRow :=
  ⟨"P1", "Gadget", "Electronics", 4, 1234, "great", "en", 1/5, 3/10, 1/2, "Positivo"⟩

/-! ### Helper lemmas -/

lemma takeWhile_not_dot {l : List Char} (h : l.all Char.isDigit = true) :
    l.takeWhile (· ≠ '.') = l ∧ l.dropWhile (· ≠ '.') = [] := by
  induction l with
  | nil => simp
  | cons c cs ih =>
    simp only [List.all_cons, Bool.and_eq_true] at h
    have hc : c ≠ '.' := by
      intro he
      rw [he] at h
      exact absurd h.1 (by decide)
    have hcd : decide (c ≠ '.') = true := by simp [hc]
    obtain ⟨h1, h2⟩ := ih h.2
    refine ⟨?_, ?_⟩
    · rw [List.takeWhile_cons, hcd, h1]
      exact if_pos rfl
    · rw [List.dropWhile_cons, hcd, h2]
      exact if_pos rfl

lemma dropLoop_cons_of_notmem {ρ : Type} (p : ρ → Bool) (xs : List ℕ) (l : ℕ) (r : ρ)
    (df : List (ℕ × ρ)) (h : l ∉ xs) :
    dropLoop p xs ((l, r) :: df) = (l, r) :: dropLoop p xs df := by
  induction xs generalizing df with
  | nil => rfl
  | cons x xs ih =>
    have hxl : (x == l) = false :=
      beq_eq_false_iff_ne.mpr fun he => h (he ▸ List.mem_cons_self x xs)
    have h' : l ∉ xs := fun hm => h (List.mem_cons_of_mem _ hm)
    have hlook : List.lookup x ((l, r) :: df) = df.lookup x := by
      rw [List.lookup_cons, hxl]
    unfold dropLoop
    rw [hlook]
    cases hdf : df.lookup x with
    | none => exact ih df h'
    | some rr =>
      dsimp only
      by_cases hp : p rr = true
      · rw [if_pos hp, if_pos hp]
        have hfil : ((l, r) :: df).filter (fun e => e.1 ≠ x) =
            (l, r) :: df.filter (fun e => e.1 ≠ x) := by
          refine List.filter_cons_of_pos ?_
          simp only [decide_eq_true_eq]
          exact fun he => by simp [he] at hxl
        rw [hfil]
        exact ih _ h'
      · rw [if_neg hp, if_neg hp]
        exact ih df h'

lemma pyFloat_digits {l : List Char} (h1 : l ≠ []) (h2 : l.all Char.isDigit = true) :
    pyFloat? ⟨l⟩ = some ((digitsVal l : ℕ) : ℚ) := by
  obtain ⟨ht, hd⟩ := takeWhile_not_dot h2
  unfold pyFloat?
  simp only [String.data]
  rw [hd, ht]
  exact if_pos ⟨h1, h2⟩

lemma dropLoop_eq_filterPass {ρ : Type} (p : ρ → Bool) :
    ∀ df : List (ℕ × ρ), (df.map Prod.fst).Nodup →
      dropLoop p (df.map Prod.fst) df = filterPass p df := by
  intro df
  induction df with
  | nil => intro _; rfl
  | cons e df ih =>
    intro hnd
    obtain ⟨l, r⟩ := e
    simp only [List.map_cons, List.nodup_cons] at hnd
    obtain ⟨hl, hnd'⟩ := hnd
    have hlook : List.lookup l ((l, r) :: df) = some r := by
      rw [List.lookup_cons, beq_self_eq_true]
    unfold dropLoop
    rw [List.map_cons]
    dsimp only
    rw [hlook]
    dsimp only
    by_cases hp : p r = true
    · rw [if_pos hp]
      have hfil : ((l, r) :: df).filter (fun e => e.1 ≠ l) = df := by
        rw [List.filter_cons_of_neg (by simp)]
        refine List.filter_eq_self.mpr ?_
        intro e he
        simp only [decide_eq_true_eq]
        intro heq
        exact hl (heq ▸ List.mem_map_of_mem Prod.fst he)
      rw [hfil, ih hnd']
      unfold filterPass
      rw [List.filter_cons_of_neg (by simp [hp])]
    · rw [if_neg hp]
      rw [dropLoop_cons_of_notmem p (df.map Prod.fst) l r df hl, ih hnd']
      unfold filterPass
      rw [List.filter_cons_of_pos (by simp [hp])]

lemma coerceRatings_fail {df : List (ℕ × SplitRow)}
    (h : ∃ e ∈ df, pyFloat? e.2.rating = none) : coerceRatings df = none := by
  induction df with
  | nil => simp at h
  | cons e rest ih =>
    obtain ⟨f, hf, hnone⟩ := h
    unfold coerceRatings
    rcases List.mem_cons.mp hf with rfl | hmem
    · rw [hnone]
    · cases hp : pyFloat? e.2.rating with
      | none => rfl
      | some q =>
        dsimp only
        rw [ih ⟨f, hmem, hnone⟩]
        rfl

lemma coerceRatings_ok {df : List (ℕ × SplitRow)}
    (h : ∀ e ∈ df, (pyFloat? e.2.rating).isSome) :
    ∃ out, coerceRatings df = some out ∧
      List.Forall₂ (fun (e : ℕ × SplitRow) (o : ℕ × RatedRow) =>
        o.1 = e.1 ∧ pyFloat? e.2.rating = some o.2.rating ∧
        o.2 = e.2.mapCols id (fun _ => o.2.rating) id) df out := by
  induction df with
  | nil => exact ⟨[], rfl, List.Forall₂.nil⟩
  | cons e rest ih =>
    have he := h e (List.mem_cons_self _ _)
    obtain ⟨q, hq⟩ := Option.isSome_iff_exists.mp he
    obtain ⟨out, hout, hfa⟩ := ih fun f hf => h f (List.mem_cons_of_mem _ hf)
    refine ⟨(e.1, e.2.mapCols id (fun _ => q) id) :: out, ?_, ?_⟩
    · unfold coerceRatings
      rw [hq]
      dsimp only
      rw [hout]
      rfl
    · exact List.Forall₂.cons ⟨rfl, hq, rfl⟩ hfa

lemma get_sentiment_one : get_sentiment 1 = "Positivo" := by
  unfold get_sentiment
  rw [if_pos (by norm_num)]

/-! ### Claim theorems -/

/-- C2: the derived sentiment label is determined from the compound score by
the fixed thresholds of lines 56-62: compound ≥ 0.05 gives "Positivo",
compound < -0.05 gives "Negative", anything in between gives "Neutral". -/
theorem get_sentiment_thresholds (c : ℚ) :
    (5 / 100 ≤ c → get_sentiment c = "Positivo") ∧
    (c < -(5 / 100) → get_sentiment c = "Negative") ∧
    (-(5 / 100) ≤ c → c < 5 / 100 → get_sentiment c = "Neutral") := by
  unfold get_sentiment
  refine ⟨fun h => ?_, fun h => ?_, fun h1 h2 => ?_⟩ <;>
    split_ifs <;> first | rfl | linarith

/-- Witness for C2: the three threshold branches at compound 1, -1 and 0. -/
theorem get_sentiment_thresholds_witness :
    get_sentiment 1 = "Positivo" ∧ get_sentiment (-1) = "Negative" ∧
    get_sentiment 0 = "Neutral" :=
  ⟨(get_sentiment_thresholds 1).1 (by norm_num),
   (get_sentiment_thresholds (-1)).2.1 (by norm_num),
   (get_sentiment_thresholds 0).2.2 (by norm_num) (by norm_num)⟩

/-- C4: rating_count repair maps a missing value to 0 and a string of digits
with thousands-separator commas to the number written by its digits alone
(so "1,234" becomes 1234); the repaired value lives in the numeric (float)
column type. -/
theorem repairRatingCount_spec :
    repairRatingCount none = some 0 ∧
    ∀ s : String, s.data.all (fun c => c.isDigit || c == ',') = true →
      s.data.any Char.isDigit = true →
      repairRatingCount (some s) = some ((digitsVal (s.data.filter Char.isDigit) : ℕ) : ℚ) := by
  constructor
  · show pyFloat? "0" = some 0
    rw [show ("0" : String) = ⟨['0']⟩ from rfl, pyFloat_digits (by decide) (by decide)]
    rw [show digitsVal ['0'] = 0 from by decide]
    norm_num
  · intro s hall hany
    show pyFloat? (removeCommas s) = _
    unfold removeCommas
    have hfe : s.data.filter (fun c => decide (c ≠ ',')) = s.data.filter Char.isDigit := by
      apply List.filter_congr
      intro a ha
      have h := List.all_eq_true.mp hall a ha
      rcases (by simpa using h : a.isDigit = true ∨ a = ',') with hd | hc
      · have hne : a ≠ ',' := fun he => by rw [he] at hd; exact absurd hd (by decide)
        simp [hne, hd]
      · subst hc
        decide
    rw [hfe]
    have hany' : ∃ d ∈ s.data, d.isDigit = true := by simpa using hany
    obtain ⟨d, hdm, hdd⟩ := hany'
    refine pyFloat_digits ?_ ?_
    · exact List.ne_nil_of_mem (List.mem_filter.mpr ⟨hdm, hdd⟩)
    · exact List.all_eq_true.mpr fun a ha => (List.mem_filter.mp ha).2

/-- Witness for C4: "1,234" repairs to the float 1234. -/
theorem repairRatingCount_spec_witness :
    repairRatingCount (some "1,234") =
      some ((digitsVal ("1,234".data.filter Char.isDigit) : ℕ) : ℚ) ∧
    ((digitsVal ("1,234".data.filter Char.isDigit) : ℕ) : ℚ) = 1234 :=
  ⟨repairRatingCount_spec.2 "1,234" (by decide) (by decide),
   by rw [show digitsVal ("1,234".data.filter Char.isDigit) = 1234 from by decide]; norm_num⟩

/-- C9: the truncation before chart 6 maps a name of more than 10 characters
to exactly its first 10 characters followed by "...", and leaves a name of
10 or fewer characters unchanged. -/
theorem truncName_spec (x : String) :
    (10 < x.length →
      (truncName x).data = x.data.take 10 ++ ['.', '.', '.'] ∧
      (x.data.take 10).length = 10) ∧
    (x.length ≤ 10 → truncName x = x) := by
  constructor
  · intro h
    unfold truncName
    rw [if_pos h]
    constructor
    · rw [String.data_append]
    · rw [List.length_take]
      have h' : 10 < x.data.length := h
      omega
  · intro h
    unfold truncName
    rw [if_neg (Nat.not_lt.mpr h)]

/-- Witness for C9: a 12-character name is truncated, a 5-character name is
kept. -/
theorem truncName_spec_witness :
    (truncName "abcdefghijkl").data = "abcdefghijkl".data.take 10 ++ ['.', '.', '.'] ∧
    truncName "short" = "short" :=
  ⟨((truncName_spec "abcdefghijkl").1 (by decide)).1,
   (truncName_spec "short").2 (by decide)⟩

/-- C8: the ×100 rescaling of line 75 is an assignment to the exploded view
only — the original frame `df` of the two-frame state is unchanged — and a
row whose three scores sum to 1 within tolerance ε sums to 100 within 100·ε
after rescaling. -/
theorem rescale_only_exploded (st : PipeState) (r : ExplodedRow) (ε : ℚ) :
    (rescaleState st).df = st.df ∧
    (rescaleState st).df_exploded = st.df_exploded.map (fun e => (e.1, rescaleRow e.2)) ∧
    (|r.negative + r.neutral + r.positive - 1| ≤ ε →
      |(rescaleRow r).negative + (rescaleRow r).neutral + (rescaleRow r).positive - 100| ≤
        100 * ε) := by
  refine ⟨rfl, rfl, fun h => ?_⟩
  have key : (rescaleRow r).negative + (rescaleRow r).neutral + (rescaleRow r).positive - 100
      = 100 * (r.negative + r.neutral + r.positive - 1) := by
    show 100 * r.negative + 100 * r.neutral + 100 * r.positive - 100 = _
    ring
  rw [key, abs_mul, show |(100 : ℚ)| = 100 from abs_of_nonneg (by norm_num)]
  exact mul_le_mul_of_nonneg_left h (by norm_num)

/-- Witness for C8: a row with scores 1/5 + 3/10 + 1/2 = 1 rescales to a
row summing exactly to 100. -/
theorem rescale_only_exploded_witness :
    |(rescaleRow xdemo).negative + (rescaleRow xdemo).neutral + (rescaleRow xdemo).positive
      - 100| ≤ 100 * 0 :=
  (rescale_only_exploded ⟨[], []⟩ xdemo 0).2.2 (by norm_num [xdemo])

/-- C10: each in-place deletion loop — the rating-sentinel loop of lines
32-34 and the language-filter loop of lines 48-52 — equals a filter pass
keeping exactly the rows not matching the drop predicate, in their original
relative order, provided the index labels are distinct (they are: pandas
labels survive from the initial range index). -/
theorem deletion_loops_refine_filter (dfr : List (ℕ × SplitRow)) (dfl : List (ℕ × LangRow))
    (h1 : (dfr.map Prod.fst).Nodup) (h2 : (dfl.map Prod.fst).Nodup) :
    ratingLoop dfr = filterPass (fun r => r.rating == "|") dfr ∧
    langLoop dfl = filterPass (fun r => r.language != "en") dfl :=
  ⟨dropLoop_eq_filterPass _ dfr h1, dropLoop_eq_filterPass _ dfl h2⟩

/-- Witness for C10: both loops on concrete three-row and two-row frames. -/
theorem deletion_loops_refine_filter_witness :
    ratingLoop rdemo = filterPass (fun r => r.rating == "|") rdemo ∧
    langLoop ldemo = filterPass (fun r => r.language != "en") ldemo :=
  deletion_loops_refine_filter rdemo ldemo (by decide) (by decide)

/-- C5: after the language filter and the index reset, every surviving row's
detected language is "en" and the index labels are the contiguous range
starting at zero. -/
theorem language_filter_spec (df : List (ℕ × LangRow))
    (h : (df.map Prod.fst).Nodup) :
    (∀ e ∈ resetIndex (langLoop df), e.2.language = "en") ∧
    (resetIndex (langLoop df)).map Prod.fst =
      List.range ((resetIndex (langLoop df)).length) := by
  have hl : langLoop df = filterPass (fun r => r.language != "en") df :=
    dropLoop_eq_filterPass _ df h
  constructor
  · rintro ⟨a, b⟩ he
    have hb : b ∈ (langLoop df).map Prod.snd := (List.of_mem_zip he).2
    obtain ⟨x, hx, rfl⟩ := List.mem_map.mp hb
    rw [hl] at hx
    have := (List.mem_filter.mp hx).2
    simpa using this
  · have hlen : (List.range (langLoop df).length).length ≤
        ((langLoop df).map Prod.snd).length := by simp
    show (List.zip _ _).map Prod.fst = _
    rw [List.map_fst_zip _ _ hlen]
    congr 1
    simp [resetIndex]

/-- Witness for C5: on a frame with one Spanish and one English row the
English row survives at the fresh label 0. -/
theorem language_filter_spec_witness :
    ((0, enRowDemo) : ℕ × LangRow).2.language = "en" ∧
    (resetIndex (langLoop ldemo)).map Prod.fst =
      List.range ((resetIndex (langLoop ldemo)).length) :=
  ⟨(language_filter_spec ldemo (by decide)).1 (0, enRowDemo) (by decide),
   (language_filter_spec ldemo (by decide)).2⟩

/-- C3: rating repair drops exactly the rows whose rating field is the
literal delimiter "|"; every surviving row's rating is then coerced to
float, and one uncoercible surviving value makes the whole step fail with
no row-level recovery. -/
theorem rating_repair_spec (df : List (ℕ × SplitRow)) (h : (df.map Prod.fst).Nodup) :
    ratingLoop df = df.filter (fun e => !(e.2.rating == "|")) ∧
    ((∃ e ∈ ratingLoop df, pyFloat? e.2.rating = none) →
      coerceRatings (ratingLoop df) = none) ∧
    ((∀ e ∈ ratingLoop df, (pyFloat? e.2.rating).isSome) →
      ∃ out, coerceRatings (ratingLoop df) = some out ∧
        List.Forall₂ (fun (e : ℕ × SplitRow) (o : ℕ × RatedRow) =>
          o.1 = e.1 ∧ pyFloat? e.2.rating = some o.2.rating ∧
          o.2 = e.2.mapCols id (fun _ => o.2.rating) id) (ratingLoop df) out) :=
  ⟨dropLoop_eq_filterPass _ df h, coerceRatings_fail, coerceRatings_ok⟩

/-- Witness for C3: the sentinel row of `rdemo` is removed and the two
survivors coerce; the uncoercible survivor of `rdemoBad` aborts the step. -/
theorem rating_repair_spec_witness :
    ratingLoop rdemo = rdemo.filter (fun e => !(e.2.rating == "|")) ∧
    (∃ out, coerceRatings (ratingLoop rdemo) = some out ∧
      List.Forall₂ (fun (e : ℕ × SplitRow) (o : ℕ × RatedRow) =>
        o.1 = e.1 ∧ pyFloat? e.2.rating = some o.2.rating ∧
        o.2 = e.2.mapCols id (fun _ => o.2.rating) id) (ratingLoop rdemo) out) ∧
    coerceRatings (ratingLoop rdemoBad) = none :=
  ⟨(rating_repair_spec rdemo (by decide)).1,
   (rating_repair_spec rdemo (by decide)).2.2 (by decide),
   (rating_repair_spec rdemoBad (by decide)).2.1 (by decide)⟩

/-- C6: the exploded dataset has one row per category segment — its row
count is the sum over original rows of the category-list length — and every
exploded row agrees with its source row on all fields except category,
whose value is one of the source row's segments.  The hypothesis that every
category list is non-empty marks the domain on which the flat-map model
coincides with `pandas.explode`; in the pipeline it always holds because
`split("|")` returns at least one segment. -/
theorem explode_spec (df : List (ℕ × ScoredRow)) (h : ∀ e ∈ df, e.2.category ≠ []) :
    (explodeStep df).length = (df.map (fun e => e.2.category.length)).sum ∧
    ∀ e ∈ df, ∀ x ∈ explodeRow e.2,
      x.product_id = e.2.product_id ∧ x.product_name = e.2.product_name ∧
      x.rating = e.2.rating ∧ x.rating_count = e.2.rating_count ∧
      x.review_content = e.2.review_content ∧ x.language = e.2.language ∧
      x.negative = e.2.negative ∧ x.neutral = e.2.neutral ∧
      x.positive = e.2.positive ∧ x.compound = e.2.compound ∧
      x.category ∈ e.2.category := by
  constructor
  · simp [explodeStep, List.length_flatMap, explodeRow, Function.comp_def]
  · intro e he x hx
    simp only [explodeRow, List.mem_map] at hx
    obtain ⟨c, hc, rfl⟩ := hx
    exact ⟨rfl, rfl, rfl, rfl, rfl, rfl, rfl, rfl, rfl, rfl, hc⟩

/-- Witness for C6: the row with categories ["Electronics", "Accessories"]
explodes into exactly two rows. -/
theorem explode_spec_witness :
    (explodeStep sdemo).length = (sdemo.map (fun e => e.2.category.length)).sum :=
  (explode_spec sdemo (by decide)).1

/-- C7: the rank-and-truncate step keeps at most 20 rows and they are
pairwise non-increasing under the lexicographic order on the
(positive, neutral, negative) key tuple, highest keys first. -/
theorem top20_sorted (df : List (ℕ × ExplodedRow)) :
    (top20 df).length ≤ 20 ∧
    (top20 df).Pairwise (fun a b => lexKey b.2 ≤ lexKey a.2) := by
  constructor
  · exact List.length_take_le 20 _
  · have hs : (df.insertionSort rowGE).Sorted rowGE := List.sorted_insertionSort rowGE df
    exact List.Pairwise.sublist (List.take_sublist 20 _) hs

/-- C1 (refuted on the code — code bug): by the time chart 4 is rendered,
line 71 has already overwritten the numeric compound score with the
`get_sentiment` label, so the scatter's y and color column carries a string,
not the scalar in [-1, 1]: for an input row whose review the scorer rates
with numeric compound 1, the chart-4 column evaluates to the string
"Positivo". -/
theorem compound_overwritten_before_chart4 :
    (chartSlice demoDetect demoPolarity [demoRow]).map chart4Data =
      some [⟨5, "Positivo"⟩] ∧
    (demoPolarity "great").compound = 1 := by
  refine ⟨?_, rfl⟩
  simp +decide only [chartSlice, runCleanPipeline, loadDF, dropDuplicates, dropDupAux,
    splitStep, RowG.mapCols, stripReview, stripSet, pySplitCats, splitPipe, ratingLoop,
    dropLoop, coerceRatings, pyFloat?, digitsVal, coerceCounts, repairRatingCount,
    removeCommas, detectStep, demoDetect, langLoop, resetIndex, scoreStep, scoreRow,
    demoPolarity, get_sentiment_one, explodeStep, explodeRow, rescaleRow, top20,
    List.insertionSort, chart4Data, demoRow, Option.bind, List.range, List.range.loop,
    List.zip, List.zipWith, List.lookup, List.map, List.flatMap, List.take,
    List.takeWhile, List.dropWhile, List.filter, List.reverse, List.foldl, List.length,
    Option.map]

end Diagrams
